import Mathlib

set_option linter.unusedVariables false

/-!
Verification of the retry/backoff layer of the gosnowflake driver
(retry.go, client.go) against its specification.

Shallow embedding conventions:
* Go time.Duration (an int64 count of nanoseconds) is modelled as Int;
  every duration handled by this code is far below the int64 bounds, so
  plain integer arithmetic coincides with the Go arithmetic.
* The parsed query string of a URL (url.Values) is modelled as an
  association list; the Encode/ParseQuery round trip of Go preserves the
  key-indexed contents (per-key value order included), which is the only
  part of the query string the code under study reads or writes.
* rand.Int63n(n) draws uniformly from 0 (inclusive) to n (exclusive) and
  panics for n below 1; it is modelled by an explicit draw parameter r
  reduced modulo n, returning none on the panicking inputs.
* Go string tests on message beginnings and endings are modelled on the
  underlying character lists so that they compute by decide and rfl.
-/

/-- Query key request_guid (retry.go). -/
def requestGUIDKey : String := "request_guid"

/-- Query key retryCount (retry.go). -/
def retryCountKey : String := "retryCount"

/-- Query key retryReason (retry.go). -/
def retryReasonKey : String := "retryReason"

/-- Query key clientStartTime (retry.go). -/
def clientStartTimeKey : String := "clientStartTime"

/-- One second in nanoseconds (Go time.Second). -/
def timeSecond : Int := 1000000000

/-- Modelled from the spec: queryRequestPath, the query-execution route
used by isQueryRequest as its path test; the defining file of this constant
is not part of the visible source (it lives in the REST layer). Only its
role as a fixed string matters here. -/
def queryRequestPath : String := "/queries/v1/query-request"

/-- Modelled from the spec: ErrOCSPStatusRevoked, the numeric code of the
certificate-revoked driver error; its defining file is not part of the
visible source, so the value is a fixed representative. -/
def ErrOCSPStatusRevoked : Int := 261006

/-- Modelled from the spec: ErrFailedToHeartbeat, the numeric code of the
failed-to-heartbeat driver error; its defining file is not part of the
visible source, so the value is a fixed representative. -/
def ErrFailedToHeartbeat : Int := 261005

/-- Modelled from the spec: the application-level code that signals an
expired session in a response payload; its defining file is not part of the
visible source, so the value is a fixed representative. -/
def sessionExpiredCode : Int := 390112

/-- Modelled from the spec: durationMin (a helper not in the visible
source); the spec describes the backoff as the minimum of the cap and the
computed value. -/
def durationMin (a b : Int) : Int := min a b

/-- Go strings.HasPrefix, computed on the character lists. -/
def goHasPrefixB (s pre : String) : Bool := pre.data.isPrefixOf s.data

/-- Go strings.HasSuffix, computed on the character lists. -/
def goHasSuffixB (s suf : String) : Bool := suf.data.isSuffixOf s.data

/-! ## Query strings (url.Values) -/

/-- Go url.Values.Del: remove every pair with the given key. -/
def qdel (q : List (String × String)) (k : String) : List (String × String) :=
  q.filter (fun p => p.1 ≠ k)

/-- Go url.Values.Add: append a pair. -/
def qadd (q : List (String × String)) (k v : String) : List (String × String) :=
  q ++ [(k, v)]

/-- Go url.Values.Has. -/
def qhas (q : List (String × String)) (k : String) : Bool :=
  q.any (fun p => p.1 = k)

/-- Go url.Values.Get: first value for the key, empty when absent. -/
def qget (q : List (String × String)) (k : String) : String :=
  match q.find? (fun p => p.1 = k) with
  | some p => p.2
  | none => ""

/-- A request URL: the path and the (parsed) query string. Go threads the
query through RawQuery; the mutators below parse and re-encode it, which
this model renders as direct manipulation of the association list. -/
structure URL where
  path : String
  query : List (String × String)
deriving DecidableEq, Repr

/-- Function isQueryRequest (retry.go line 181): path test against the
query-execution route. -/
def isQueryRequest (u : URL) : Bool :=
  goHasPrefixB u.path queryRequestPath

/-! ## URL state mutators (retry.go lines 40 to 183)

Each mutator object is constructed lazily at the first retry and reused for
the rest of the operation. requestGUIDReplace and retryCountUpdate cache
the query values parsed at construction time and re-encode that cache on
every call (mutating only their own key in it), while the retry-reason
updater and the client-start-time setter re-read the current query of the
URL on every call. -/

/-- Interface requestGUIDReplacer: either the no-op transientReplace or
requestGUIDReplace with its cached parsed query values. -/
inductive GuidReplacerM where
  | transient
  | active (cached : List (String × String))
deriving DecidableEq, Repr

/-- Constructor newRequestGUIDReplace (retry.go lines 49 to 61): no-op
unless the URL already carries a non-empty request_guid value. (The
unparsable-query branch has no counterpart in this model, where queries are
already parsed.) -/
def newRequestGUIDReplace (u : URL) : GuidReplacerM :=
  if (qget u.query requestGUIDKey).length = 0 then .transient
  else .active u.query

/-- Method replace (retry.go lines 68 to 70 and 86 to 91). The active
replacer deletes and re-adds request_guid in its cached values and
re-encodes them into the URL; guid stands for the freshly generated UUID.
Go mutates the cached map in place, but only ever at request_guid, so
rebuilding from the construction-time cache yields the same map. -/
def GuidReplacerM.replace (g : GuidReplacerM) (guid : String) (u : URL) : URL :=
  match g with
  | .transient => u
  | .active cached =>
      { u with query := qadd (qdel cached requestGUIDKey) requestGUIDKey guid }

/-- Interface retryCountUpdater: either the no-op transientRetryCountUpdater
or retryCountUpdate with its cached parsed query values. -/
inductive RetryCountUpdaterM where
  | transient
  | active (cached : List (String × String))
deriving DecidableEq, Repr

/-- Constructor newRetryCountUpdater (retry.go lines 118 to 129): no-op
unless the URL is a query-execution request. (The unparsable-query branch
has no counterpart in this model.) -/
def newRetryCountUpdater (u : URL) : RetryCountUpdaterM :=
  if ¬ isQueryRequest u then .transient
  else .active u.query

/-- Method replaceOrAdd (retry.go lines 107 to 116): deletes and re-adds
retryCount in the cached values and re-encodes them into the URL. -/
def RetryCountUpdaterM.replaceOrAdd (c : RetryCountUpdaterM) (retry : Int) (u : URL) : URL :=
  match c with
  | .transient => u
  | .active cached =>
      { u with query := qadd (qdel cached retryCountKey) retryCountKey (toString retry) }

/-- Modelled from the spec: the three-valued configuration boolean whose
defining file is not part of the visible source; only the comparison with
its explicit-false value is consumed here. -/
inductive ConfigBool where
  | unset
  | configBoolTrue
  | configBoolFalse
deriving DecidableEq, Repr

/-- Modelled from the spec: the driver configuration, restricted to the
retry-reason switch consumed by newRetryReasonUpdater. -/
structure Config where
  IncludeRetryReason : ConfigBool
deriving DecidableEq, Repr

/-- Interface retryReasonUpdater: either the no-op
transientRetryReasonUpdater or retryReasonUpdate (which holds only the URL
and re-reads its query on each call). -/
inductive RetryReasonUpdaterM where
  | transient
  | active
deriving DecidableEq, Repr

/-- Constructor newRetryReasonUpdater (retry.go lines 155 to 165): no-op
for non-query-execution requests and when the configuration explicitly
disables retry reasons. -/
def newRetryReasonUpdater (u : URL) (cfg : Option Config) : RetryReasonUpdaterM :=
  if ¬ isQueryRequest u then .transient
  else
    match cfg with
    | some c => if c.IncludeRetryReason = .configBoolFalse then .transient else .active
    | none => .active

/-- Method replaceOrAdd (retry.go lines 139 to 145 and 151 to 153):
re-parses the current query of the URL, deletes and re-adds retryReason. -/
def RetryReasonUpdaterM.replaceOrAdd (ru : RetryReasonUpdaterM) (reason : Int) (u : URL) : URL :=
  match ru with
  | .transient => u
  | .active =>
      { u with query := qadd (qdel u.query retryReasonKey) retryReasonKey (toString reason) }

/-- Function ensureClientStartTimeIsSet (retry.go lines 167 to 179): adds
clientStartTime only on query-execution requests and only when absent. -/
def ensureClientStartTimeIsSet (u : URL) (clientStartTime : String) : URL :=
  if ¬ isQueryRequest u then u
  else if qhas u.query clientStartTimeKey then u
  else { u with query := qadd u.query clientStartTimeKey clientStartTime }

/-! ## Decorrelated jitter backoff (retry.go lines 185 to 213) -/

/-- Go rand.Int63n: uniform draw from 0 (inclusive) to n (exclusive),
panicking (none) for n below 1. The draw is represented by r reduced
modulo n. -/
def int63n (r n : Int) : Option Int :=
  if n ≤ 0 then none else some (r % n)

/-- Function randSecondDuration (retry.go lines 191 to 193): whole-second
draw below n. Go int64 division truncates towards zero, hence Int.tdiv. -/
def randSecondDuration (r n : Int) : Option Int :=
  (int63n r (n.tdiv timeSecond)).map (fun k => k * timeSecond)

/-- Structure waitAlgo (retry.go lines 185 to 189); the mutex only guards
the shared random source and has no counterpart in this sequential model. -/
structure WaitAlgo where
  base : Int
  cap : Int
deriving DecidableEq, Repr

/-- Method waitAlgo.decorr (retry.go lines 196 to 207), with the single
random draw of the taken branch supplied as r. A none result models the
panic of rand.Int63n on a non-positive bound. -/
def decorr (r : Int) (w : WaitAlgo) (attempt : Int) (sleep : Int) : Option Int :=
  let t := 3 * sleep - w.base
  if t > 0 then
    (randSecondDuration r t).map (fun d => durationMin w.cap (d + w.base))
  else if t < 0 then
    (randSecondDuration r (-t)).map (fun d => durationMin w.cap (d + 3 * sleep))
  else
    some w.base

/-- Value defaultWaitAlgo (retry.go lines 209 to 213): base 5s, cap 160s. -/
def defaultWaitAlgo : WaitAlgo :=
  { base := 5 * timeSecond, cap := 160 * timeSecond }

/-! ## Errors and the classifier (retry.go lines 380 to 409) -/

/-- Go error values relevant to this code: the url.Error transport wrapper
and the causes the classifier inspects, the timeout errors built by execute
itself (fmt.Errorf, recorded with the data embedded in their message), and
arbitrary other errors identified by their message. -/
inductive GoError where
  | urlError (cause : GoError)
  | snowflakeError (number : Int) (msg : String)
  | certificateInvalidError
  | unknownAuthorityError
  | contextDeadlineExceeded
  | contextCanceled
  | timeoutStatusErr (timeoutNs : Int) (status : Int)
  | timeoutHangingErr (timeoutNs : Int)
  | otherError (msg : String)
deriving DecidableEq, Repr

/-- Go Error() strings, used only by the platform-specific
expired-certificate check. Only otherError can carry an arbitrary message;
the causes caught earlier by typed checks never reach the string test, and
the real messages of the remaining constructors do not match an x509
certificate-expired message. -/
def GoError.message : GoError → String
  | .urlError cause => "url error: " ++ cause.message
  | .snowflakeError number msg => toString number ++ ": " ++ msg
  | .certificateInvalidError => "x509: certificate is not authorized"
  | .unknownAuthorityError => "x509: certificate signed by unknown authority"
  | .contextDeadlineExceeded => "context deadline exceeded"
  | .contextCanceled => "context canceled"
  | .timeoutStatusErr _t _st => "timeout with status"
  | .timeoutHangingErr _t => "timeout hanging"
  | .otherError msg => msg

/-- Test for the url.Error transport wrapper (the type assertion at
retry.go line 381). -/
def GoError.isURLErrorB : GoError → Bool
  | .urlError _ => true
  | _ => false

/-- Classifier retryHTTP.isRetryableError (retry.go lines 380 to 409),
parameterized by runtime.GOOS. Returns the pair (doExit, err): true means
the retry loop must stop and surface the error. -/
def isRetryableError (goos : String) (e : GoError) : Bool × GoError :=
  match e with
  | .urlError cause =>
      if cause = .contextDeadlineExceeded ∨ cause = .contextCanceled then
        (true, cause)
      else
        let revoked : Bool :=
          match cause with
          | .snowflakeError number _ => number = ErrOCSPStatusRevoked
          | _ => false
        if revoked then
        (true, .urlError cause)
      else if cause = .certificateInvalidError then
        (true, .urlError cause)
      else if cause = .unknownAuthorityError then
        (true, .urlError cause)
      else if goos = "darwin" ∧ goHasPrefixB cause.message "x509:" ∧
              goHasSuffixB cause.message "certificate is expired" then
        (true, .urlError cause)
      else
        (false, .urlError cause)
  | e => (false, e)

/-! ## The execute loop (retry.go lines 280 to 378)

The loop is modelled one iteration at a time over an explicit state. The
injected transport is an oracle attempts giving the result of client.Do on
each iteration, guids enumerates the fresh UUIDs drawn by NewUUID, and
rands the random draws consumed by the backoff. Body creation (bodyCreator)
and request construction never fail in the scenarios under study and are
elided; context cancellation is a concurrent event outside this sequential
model. -/

/-- Result of one client.Do call: a response with its HTTP status code, or
a transport error (in which case the response is nil, per the contract of
http.Client.Do). -/
inductive AttemptOutcome where
  | resp (status : Int)
  | terr (e : GoError)
deriving DecidableEq, Repr

/-- The environment of one execute() call: configuration and oracles. -/
structure ExecEnv where
  goos : String
  raise4XX : Bool
  cfg : Option Config
  timeout : Int
  clientStartTime : String
  attempts : Nat → AttemptOutcome
  guids : Nat → String
  rands : Nat → Int

/-- The lazily constructed mutator objects (nil until the first retry). -/
structure MutatorsState where
  guidR : Option GuidReplacerM
  countU : Option RetryCountUpdaterM
  reasonU : Option RetryReasonUpdaterM
deriving DecidableEq, Repr

/-- The mutable loop state of execute(). -/
structure ExecState where
  fullURL : URL
  retryCounter : Nat
  sleepTime : Int
  totalTimeout : Int
  mutators : MutatorsState
deriving DecidableEq, Repr

/-- The state at loop entry (retry.go lines 281 to 289). -/
def initState (env : ExecEnv) (u : URL) : ExecState :=
  { fullURL := u, retryCounter := 0, sleepTime := 0,
    totalTimeout := env.timeout,
    mutators := { guidR := none, countU := none, reasonU := none } }

/-- The URL-mutation pass of one retry (retry.go lines 348 to 364): lazily
construct each mutator, then apply guid replacement, retry count, retry
reason and client start time in order. -/
def retryMutationPass (env : ExecEnv) (retryCounter : Nat) (reason : Int)
    (ms : MutatorsState) (u : URL) : MutatorsState × URL :=
  let gr := ms.guidR.getD (newRequestGUIDReplace u)
  let u1 := gr.replace (env.guids retryCounter) u
  let cu := ms.countU.getD (newRetryCountUpdater u1)
  let u2 := cu.replaceOrAdd retryCounter u1
  let ru := ms.reasonU.getD (newRetryReasonUpdater u2 env.cfg)
  let u3 := ru.replaceOrAdd reason u2
  let u4 := ensureClientStartTimeIsSet u3 env.clientStartTime
  ({ guidR := some gr, countU := some cu, reasonU := some ru }, u4)

/-- Outcome of one loop iteration: return from execute() with the Go pair
(res, err), proceed to the next iteration, or panic (the backoff draw on a
non-positive bound). -/
inductive StepResult where
  | done (res : Option Int) (err : Option GoError)
  | continue2 (s : ExecState)
  | panicked
deriving DecidableEq, Repr

/-- The retry-handling tail of one iteration (retry.go lines 330 to 375):
compute the backoff sleep, charge it against the total-timeout budget and
return on exhaustion (err first, then a status-carrying timeout error, then
the generic hanging error), otherwise bump the counter and run the
URL-mutation pass. resOpt and errOpt are the res and err of the current
iteration. -/
def retryHandling (env : ExecEnv) (s : ExecState)
    (resOpt : Option Int) (errOpt : Option GoError) : StepResult :=
  match decorr (env.rands s.retryCounter) defaultWaitAlgo s.retryCounter s.sleepTime with
  | none => .panicked
  | some sleepTime =>
      let proceed : Int → StepResult := fun newBudget =>
        let rc := s.retryCounter + 1
        let reason := resOpt.getD 0
        let (ms, u) := retryMutationPass env rc reason s.mutators s.fullURL
        .continue2 { fullURL := u, retryCounter := rc, sleepTime := sleepTime,
                     totalTimeout := newBudget, mutators := ms }
      if s.totalTimeout > 0 then
        let remaining := s.totalTimeout - sleepTime
        if remaining ≤ 0 then
          match errOpt with
          | some e => .done none (some e)
          | none =>
              match resOpt with
              | some st => .done none (some (.timeoutStatusErr env.timeout st))
              | none => .done none (some (.timeoutHangingErr env.timeout))
        else proceed remaining
      else proceed s.totalTimeout

/-- The response-status exit test (retry.go line 319): HTTP 200, or any
non-429 4xx when raise4XX is set. -/
def breakStatus (raise4XX : Bool) (st : Int) : Bool :=
  st = 200 ∨ (raise4XX ∧ 400 ≤ st ∧ st < 500 ∧ st ≠ 429)

/-- One iteration of the execute() loop (retry.go lines 291 to 376). -/
def executeIter (env : ExecEnv) (s : ExecState) : StepResult :=
  match env.attempts s.retryCounter with
  | .terr e =>
      let classified := isRetryableError env.goos e
      if classified.1 then .done none (some classified.2)
      else retryHandling env s none (some e)
  | .resp st =>
      if breakStatus env.raise4XX st then .done (some st) none
      else retryHandling env s (some st) none

/-- Final result of execute(): the Go pair (res, err), a panic, or fuel
exhaustion (the loop was still running after the given number of
iterations). -/
inductive ExecResult where
  | ret (res : Option Int) (err : Option GoError)
  | panicked
  | outOfFuel
deriving DecidableEq, Repr

/-- The execute() loop, bounded by fuel iterations. -/
def executeLoop (env : ExecEnv) : Nat → ExecState → ExecResult
  | 0, _ => .outOfFuel
  | fuel + 1, s =>
      match executeIter env s with
      | .done res err => .ret res err
      | .continue2 s' => executeLoop env fuel s'
      | .panicked => .panicked

/-- The URLs handed to the transport on successive attempts (the value of
r.fullURL at retry.go line 297 on each iteration), up to fuel attempts. -/
def executeSentURLs (env : ExecEnv) : Nat → ExecState → List URL
  | 0, _ => []
  | fuel + 1, s =>
      s.fullURL ::
        (match executeIter env s with
         | .continue2 s' => executeSentURLs env fuel s'
         | _ => [])

/-! ## Session heartbeat (heartbeatMain) -/

/-- Modelled from the spec: the outcome of the heartbeat POST exchange as
heartbeatMain (not part of the visible source) consumes it: a transport
error, a body that fails structured parsing, or a parsed payload with its
success flag and numeric code. -/
inductive HeartbeatPostResult where
  | transportError (e : GoError)
  | malformedBody
  | payload (success : Bool) (code : Int)
deriving DecidableEq, Repr

/-- Modelled from the spec: heartbeatMain (not part of the visible source).
On success no error; on a session-expired payload it invokes the
session-renewal capability (renewResult, none on success) and surfaces only
renewal failures; on a malformed body it surfaces the parse error; on any
other failure payload it surfaces a driver error with number
ErrFailedToHeartbeat carrying the numeric code of the payload. -/
def heartbeatMain (post : HeartbeatPostResult) (renewResult : Option GoError) :
    Option GoError :=
  match post with
  | .transportError e => some e
  | .malformedBody => some (.otherError "failed to parse heartbeat response")
  | .payload true _ => none
  | .payload false code =>
      if code = sessionExpiredCode then renewResult
      else some (.snowflakeError ErrFailedToHeartbeat (toString code))

/-! ## Concrete fixtures used by the per-claim theorems -/

/-- Ops applied by the three tracking mutators of the retry loop: retry
count, retry reason (with the governing configuration), client start time. -/
inductive TrackOp where
  | count (n : Int)
  | reason (cfg : Option Config) (n : Int)
  | clientStart (ts : String)

/-- One construct-and-apply use of a tracking mutator, as the retry loop
performs it the first time each mutator is needed; for URLs outside the
query-execution path the constructed mutator is the sticky no-op, so later
cached uses coincide with this function. -/
def applyTrackOp (u : URL) : TrackOp → URL
  | .count n => (newRetryCountUpdater u).replaceOrAdd n u
  | .reason cfg n => (newRetryReasonUpdater u cfg).replaceOrAdd n u
  | .clientStart ts => ensureClientStartTimeIsSet u ts

/-- A query-execution URL carrying a request_guid, as issued by query
submission. -/
def uC2fix : URL := { path := queryRequestPath, query := [(requestGUIDKey, "g0")] }

/-- Environment for the request-guid scenario: the transport always answers
HTTP 503, there is no total-timeout budget, and the fresh UUID of retry n
is the string g followed by n. -/
def envC2fix : ExecEnv :=
  { goos := "linux", raise4XX := false, cfg := none, timeout := 0,
    clientStartTime := "100",
    attempts := fun _ => .resp 503,
    guids := fun n => "g" ++ toString n,
    rands := fun _ => 1 }

/-- A non-query-path URL (an authentication route). -/
def uC3fix : URL := { path := "/session/v1/login-request", query := [] }

/-- Environment for the timeout scenario in which the final attempt fails
with a plain transport error: budget of one second, every attempt is a
connection error, and the backoff draw makes the first sleep one second. -/
def envC3tr : ExecEnv :=
  { goos := "linux", raise4XX := false, cfg := none, timeout := 1 * timeSecond,
    clientStartTime := "100",
    attempts := fun _ => .terr (.otherError "connection refused"),
    guids := fun n => "u" ++ toString n,
    rands := fun _ => 1 }

/-- Environment for the timeout scenario in which the final attempt
observed an HTTP 503 response: budget of one second and a first sleep of
one second. -/
def envC3to : ExecEnv :=
  { goos := "linux", raise4XX := false, cfg := none, timeout := 1 * timeSecond,
    clientStartTime := "100",
    attempts := fun _ => .resp 503,
    guids := fun n => "u" ++ toString n,
    rands := fun _ => 1 }

/-- Environment for the raise-on-4xx scenario: raise4XX enabled and a
transport stub answering HTTP 403. -/
def envC4w : ExecEnv :=
  { goos := "linux", raise4XX := true, cfg := none, timeout := 0,
    clientStartTime := "100",
    attempts := fun _ => .resp 403,
    guids := fun n => "u" ++ toString n,
    rands := fun _ => 1 }

/-- A URL for the raise-on-4xx scenario (a login route). -/
def uC4fix : URL := { path := "/session/v1/login-request", query := [] }

/-- Environment for the bare-cancellation scenario: every attempt fails
with an unwrapped context cancellation and no budget is configured. -/
def envC9w : ExecEnv :=
  { goos := "linux", raise4XX := false, cfg := none, timeout := 0,
    clientStartTime := "0",
    attempts := fun _ => .terr .contextCanceled,
    guids := fun n => "u" ++ toString n,
    rands := fun _ => 1 }

/-- A URL for the bare-cancellation scenario. -/
def uC9fix : URL := { path := "/session/heartbeat", query := [] }

/-! ## Helper lemmas -/

/-- Truncating division cancels an exact multiple of one second. -/
theorem tdiv_mul_timeSecond (m : Int) : (m * timeSecond).tdiv timeSecond = m :=
  Int.mul_tdiv_cancel m (by norm_num [timeSecond])

/-- On a positive whole number of seconds the random whole-second draw is
the draw modulo the number of seconds. -/
theorem randSecondDuration_mul (r m : Int) (hm : 0 < m) :
    randSecondDuration r (m * timeSecond) = some (r % m * timeSecond) := by
  simp [randSecondDuration, int63n, tdiv_mul_timeSecond, not_le.mpr hm]

/-! ## Claim theorems -/

/-- C1 (amended): for every random draw, every attempt number and every
previousSleep that is a whole number of seconds between 0 and the cap (the
only sleeps the retry loop ever feeds back), the default-configuration
backoff decorr returns (without failing) a duration between 0 and the cap
of 160s. The claim as stated, for arbitrary previousSleep, fails: see the
counterexample, where a sub-second gap between three times the sleep and
the base makes the random draw panic. -/
theorem C1_decorr_range_on_whole_seconds (r attempt : Int) (k : Nat) (hk : k ≤ 160) :
    ∃ n, decorr r defaultWaitAlgo attempt ((k : Int) * timeSecond) = some n ∧
         0 ≤ n ∧ n ≤ defaultWaitAlgo.cap := by
  have hts : (0:Int) < timeSecond := by norm_num [timeSecond]
  have hcap : (0:Int) ≤ defaultWaitAlgo.cap := by norm_num [defaultWaitAlgo, timeSecond]
  have hbase : (0:Int) ≤ defaultWaitAlgo.base := by norm_num [defaultWaitAlgo, timeSecond]
  have hkn : (0:Int) ≤ (k:Int) := Int.ofNat_nonneg k
  have key : 3 * ((k:Int) * timeSecond) - defaultWaitAlgo.base = (3 * (k:Int) - 5) * timeSecond := by
    simp only [defaultWaitAlgo]; ring
  simp only [decorr, key]
  rcases lt_trichotomy 0 (3 * (k:Int) - 5) with hpos | hzero | hneg
  · rw [if_pos (mul_pos hpos hts), randSecondDuration_mul r _ hpos, Option.map_some']
    refine ⟨_, rfl, ?_, ?_⟩
    · have h0 : (0:Int) ≤ r % (3 * (k:Int) - 5) := Int.emod_nonneg r (by omega)
      simp only [durationMin]
      exact le_min hcap (by nlinarith)
    · simp only [durationMin]; exact min_le_left _ _
  · rw [if_neg (by rw [← hzero]; simp), if_neg (by rw [← hzero]; simp)]
    exact ⟨defaultWaitAlgo.base, rfl, hbase, by norm_num [defaultWaitAlgo, timeSecond]⟩
  · have hmneg : (3 * (k:Int) - 5) * timeSecond < 0 :=
      mul_neg_of_neg_of_pos hneg hts
    rw [if_neg (by exact not_lt.mpr (le_of_lt hmneg)), if_pos hmneg]
    rw [show -((3 * (k:Int) - 5) * timeSecond) = (-(3 * (k:Int) - 5)) * timeSecond by ring]
    rw [randSecondDuration_mul r _ (by omega), Option.map_some']
    refine ⟨_, rfl, ?_, ?_⟩
    · have h0 : (0:Int) ≤ r % (-(3 * (k:Int) - 5)) := Int.emod_nonneg r (by omega)
      simp only [durationMin]
      exact le_min hcap (by nlinarith)
    · simp only [durationMin]; exact min_le_left _ _

/-- C1 witness: the amended range statement instantiated at draw 7, attempt
3 and a previous sleep of 5 whole seconds. -/
theorem C1_witness :
    ∃ n, decorr 7 defaultWaitAlgo 3 (((5 : Nat) : Int) * timeSecond) = some n ∧
         0 ≤ n ∧ n ≤ defaultWaitAlgo.cap :=
  C1_decorr_range_on_whole_seconds 7 3 5 (by decide)

/-- C1 counterexample: at attempt 0 and previousSleep 1.5s (both
non-negative, as the claim allows) decorr does not return a value at all:
three times the sleep falls half a second short of the base, so the code
calls rand.Int63n with bound 0, which panics. -/
theorem C1_counterexample :
    decorr 0 defaultWaitAlgo 0 1500000000 = none ∧ (0 : Int) ≤ 1500000000 :=
  ⟨rfl, by decide⟩

/-- C2: the claim that every retry attempt of execute() carries a freshly
generated, pairwise distinct request_guid fails on query-execution URLs.
On a query-path URL whose initial guid is g0, with fresh UUIDs g1, g2
enumerated per retry, the guids actually sent are g0, g1, g1: from the
second retry on, the retry-count updater re-encodes the query values it
cached on the first retry (which contain g1), overwriting the freshly
drawn guid. -/
theorem C2_request_guid_reuse :
    (executeSentURLs envC2fix 3 (initState envC2fix uC2fix)).map
        (fun u => qget u.query requestGUIDKey) = ["g0", "g1", "g1"]
  ∧ envC2fix.guids 1 = "g1" ∧ envC2fix.guids 2 = "g2" :=
  ⟨rfl, rfl, rfl⟩

/-- C3 (amended): when a total budget is configured and drops to zero or
below after subtracting the computed sleep, execute() stops; if the final
attempt observed a response it returns the distinguished timeout error
carrying that HTTP status, and if the final attempt failed with a
(retryable) transport error it returns that error itself. The claim as
stated promised a generic hanging timeout failure in the second case; the
counterexample shows the transport error is surfaced instead. -/
theorem C3_timeout_exhaustion_outcome (env : ExecEnv) (s : ExecState) (st : Int)
    (e : GoError) (d : Int)
    (hbudget : 0 < s.totalTimeout)
    (hdecorr : decorr (env.rands s.retryCounter) defaultWaitAlgo s.retryCounter s.sleepTime = some d)
    (hexh : s.totalTimeout - d ≤ 0) :
    (env.attempts s.retryCounter = .resp st → breakStatus env.raise4XX st = false →
        executeIter env s = .done none (some (.timeoutStatusErr env.timeout st)))
  ∧ (env.attempts s.retryCounter = .terr e → (isRetryableError env.goos e).1 = false →
        executeIter env s = .done none (some e)) := by
  constructor
  · intro hatt hbreak
    simp only [executeIter, hatt, hbreak, Bool.false_eq_true, if_false]
    simp only [retryHandling, hdecorr]
    rw [if_pos hbudget, if_pos hexh]
  · intro hatt hstop
    simp only [executeIter, hatt, hstop, Bool.false_eq_true, if_false]
    simp only [retryHandling, hdecorr]
    rw [if_pos hbudget, if_pos hexh]

/-- C3 witness: with a budget of one second, a first sleep of one second
and a transport stub answering HTTP 503, the first iteration returns the
timeout error carrying status 503. -/
theorem C3_witness :
    executeIter envC3to (initState envC3to uC3fix) =
      .done none (some (.timeoutStatusErr envC3to.timeout 503)) :=
  (C3_timeout_exhaustion_outcome envC3to (initState envC3to uC3fix) 503
      (.otherError "x") 1000000000 (by decide) (by rfl) (by decide)).1 rfl (by rfl)

/-- C3 counterexample: with a budget of one second and every attempt
failing with a plain connection error, execute() exhausts its budget and
returns the connection error itself, not the generic hanging timeout
failure the claim promises for attempts without a response. -/
theorem C3_counterexample :
    executeLoop envC3tr 3 (initState envC3tr uC3fix) =
      .ret none (some (.otherError "connection refused"))
  ∧ executeLoop envC3tr 3 (initState envC3tr uC3fix) ≠
      .ret none (some (.timeoutHangingErr envC3tr.timeout)) :=
  ⟨rfl, by decide⟩

/-- C4: with raise4XX enabled, any response whose status is in the 4xx
range and differs from 429 makes execute() return that response at once
(for every fuel, hence with zero further retries and no backoff sleep),
while a 429 response proceeds into the ordinary retry handling. -/
theorem C4_raise4xx_immediate_exit (env : ExecEnv) (s : ExecState) (st : Int)
    (h4 : env.raise4XX = true) :
    (∀ fuel, env.attempts s.retryCounter = .resp st → 400 ≤ st → st < 500 → st ≠ 429 →
        executeLoop env (fuel + 1) s = .ret (some st) none)
  ∧ (env.attempts s.retryCounter = .resp 429 →
        executeIter env s = retryHandling env s (some 429) none) := by
  constructor
  · intro fuel hatt h1 h2 h3
    have hb : breakStatus env.raise4XX st = true := by
      simp only [breakStatus, h4, decide_eq_true_eq]
      exact Or.inr ⟨trivial, h1, h2, h3⟩
    simp only [executeLoop, executeIter, hatt, hb, if_true]
  · intro hatt
    have hb : breakStatus env.raise4XX 429 = false := by
      simp [breakStatus, h4]
    simp only [executeIter, hatt, hb, Bool.false_eq_true, if_false]

/-- C4 witness: with raise4XX enabled and a transport stub answering HTTP
403, one unit of fuel suffices: execute() returns the 403 response with no
error. -/
theorem C4_witness :
    executeLoop envC4w 1 (initState envC4w uC4fix) = .ret (some 403) none :=
  (C4_raise4xx_immediate_exit envC4w (initState envC4w uC4fix) 403 rfl).1 0 rfl
    (by decide) (by decide) (by decide)

/-- C5: the classifier on a transport wrapper whose cause is the driver
certificate-revoked error returns stop with the wrapped error surfaced
as-is, and on a transport wrapper around any plain connection-style error
(one whose message does not begin with x509:) returns continue-retrying
with the error unchanged, on every platform. -/
theorem C5_classifier_revoked_vs_connection (goos m msg : String)
    (hmsg : goHasPrefixB msg "x509:" = false) :
    isRetryableError goos (.urlError (.snowflakeError ErrOCSPStatusRevoked m)) =
      (true, .urlError (.snowflakeError ErrOCSPStatusRevoked m))
  ∧ isRetryableError goos (.urlError (.otherError msg)) =
      (false, .urlError (.otherError msg)) := by
  constructor
  · simp [isRetryableError]
  · simp [isRetryableError, GoError.message, hmsg]

/-- C5 witness: the classifier statement instantiated on the darwin
platform with a concrete revocation message and a concrete
connection-refused message. -/
theorem C5_witness :
    isRetryableError "darwin"
        (.urlError (.snowflakeError ErrOCSPStatusRevoked "certificate revoked")) =
      (true, .urlError (.snowflakeError ErrOCSPStatusRevoked "certificate revoked"))
  ∧ isRetryableError "darwin"
        (.urlError (.otherError "dial tcp 127.0.0.1:443: connect: connection refused")) =
      (false, .urlError (.otherError "dial tcp 127.0.0.1:443: connect: connection refused")) :=
  C5_classifier_revoked_vs_connection "darwin" "certificate revoked"
    "dial tcp 127.0.0.1:443: connect: connection refused" (by decide)

/-- C6 (amended): with the default configuration, decorr at previousSleep 0
lands in the negative branch and returns the whole-second value (draw mod
5) seconds, a value between 0 inclusive and the base exclusive, never the
base itself; the claimed identity decorr(attempt, 0) = base fails, as the
counterexample shows (the boundary returning the base would require three
times the sleep to equal the base, which previousSleep 0 does not satisfy). -/
theorem C6_decorr_at_zero (r attempt : Int) :
    decorr r defaultWaitAlgo attempt 0 = some (r % 5 * timeSecond)
  ∧ 0 ≤ r % 5 * timeSecond ∧ r % 5 * timeSecond < defaultWaitAlgo.base := by
  have h5 : (0:Int) ≤ r % 5 := Int.emod_nonneg r (by norm_num)
  have h5' : r % 5 < 5 := Int.emod_lt_of_pos r (by norm_num)
  have hts : (0:Int) < timeSecond := by norm_num [timeSecond]
  have hb1 : 0 ≤ r % 5 * timeSecond := mul_nonneg h5 (le_of_lt hts)
  have hb2 : r % 5 * timeSecond < defaultWaitAlgo.base := by
    have : r % 5 * timeSecond ≤ 4 * timeSecond := by nlinarith
    simp only [defaultWaitAlgo]
    nlinarith
  refine ⟨?_, hb1, hb2⟩
  have key : -(3 * (0:Int) - defaultWaitAlgo.base) = 5 * timeSecond := by
    simp [defaultWaitAlgo]
  have hneg : ¬ (3 * (0:Int) - defaultWaitAlgo.base > 0) := by
    simp [defaultWaitAlgo]; nlinarith
  have hlt : 3 * (0:Int) - defaultWaitAlgo.base < 0 := by
    simp [defaultWaitAlgo]; nlinarith
  simp only [decorr]
  rw [if_neg hneg, if_pos hlt, key, randSecondDuration_mul r 5 (by norm_num)]
  simp only [Option.map_some']
  have hmin : durationMin defaultWaitAlgo.cap (r % 5 * timeSecond + 3 * 0) = r % 5 * timeSecond := by
    simp only [durationMin, defaultWaitAlgo]
    rw [mul_zero, add_zero]
    rw [min_eq_right]
    nlinarith
  rw [hmin]

/-- C6 counterexample: at draw 0 the backoff at previousSleep 0 returns 0,
which differs from the default base of 5 seconds, refuting the claimed
identity decorr(attempt, 0) = base. -/
theorem C6_counterexample :
    decorr 0 defaultWaitAlgo 0 0 = some 0 ∧
    (some (0 : Int)) ≠ some defaultWaitAlgo.base :=
  ⟨rfl, by decide⟩

/-- C7: on every URL whose query already contains the clientStartTime
parameter, ensureClientStartTimeIsSet returns the URL unchanged, for every
timestamp argument; consequently any sequence of further applications with
arbitrary timestamps leaves the URL, and in particular the stored
client-start value, untouched. -/
theorem C7_client_start_time_never_overwritten (u : URL) (ts : String)
    (h : qhas u.query clientStartTimeKey = true) :
    ensureClientStartTimeIsSet u ts = u
  ∧ ∀ l : List String, l.foldl ensureClientStartTimeIsSet u = u := by
  have h1 : ∀ ts' : String, ensureClientStartTimeIsSet u ts' = u := by
    intro ts'
    by_cases hq : isQueryRequest u
    · simp [ensureClientStartTimeIsSet, hq, h]
    · simp [ensureClientStartTimeIsSet, hq]
  refine ⟨h1 ts, ?_⟩
  intro l
  induction l with
  | nil => rfl
  | cons t l ih => rw [List.foldl_cons, h1 t]; exact ih

/-- C7 witness: a query-path URL already carrying clientStartTime 123 is
returned unchanged by a mutation pass with timestamp 999. -/
theorem C7_witness :
    ensureClientStartTimeIsSet
        { path := queryRequestPath, query := [(clientStartTimeKey, "123")] } "999" =
      { path := queryRequestPath, query := [(clientStartTimeKey, "123")] } :=
  (C7_client_start_time_never_overwritten
    { path := queryRequestPath, query := [(clientStartTimeKey, "123")] } "999" (by decide)).1

/-- C8: heartbeatMain returns no error when the keep-alive response is the
session-expired signal and renewal succeeds, and on any other failure
payload it returns the driver error whose number is ErrFailedToHeartbeat,
carrying the numeric code of the payload. -/
theorem C8_heartbeat_outcomes (renewFail : Option GoError) (code : Int)
    (hcode : code ≠ sessionExpiredCode) :
    heartbeatMain (.payload false sessionExpiredCode) none = none
  ∧ heartbeatMain (.payload false code) renewFail =
      some (.snowflakeError ErrFailedToHeartbeat (toString code)) := by
  constructor
  · simp [heartbeatMain]
  · simp [heartbeatMain, hcode]

/-- C8 witness: the heartbeat statement instantiated at a forbidden
payload with code 403 and a failing renewal capability. -/
theorem C8_witness :
    heartbeatMain (.payload false sessionExpiredCode) none = none
  ∧ heartbeatMain (.payload false 403) (some (.otherError "renew failed")) =
      some (.snowflakeError ErrFailedToHeartbeat (toString (403 : Int))) :=
  C8_heartbeat_outcomes (some (.otherError "renew failed")) 403 (by decide)

/-- C9: on every error that is not a url.Error transport wrapper, bare
context cancellations included, the classifier returns continue-retrying
with that same error; consequently, in an execute() iteration receiving
such an error (with no budget configured and a well-defined backoff draw)
the loop proceeds to the next attempt rather than surfacing the error as
fatal. -/
theorem C9_non_wrapper_errors_retryable (goos : String) (e : GoError)
    (env : ExecEnv) (s : ExecState) (d : Int)
    (hnot : e.isURLErrorB = false) :
    isRetryableError goos e = (false, e)
  ∧ (env.attempts s.retryCounter = .terr e → s.totalTimeout ≤ 0 →
      decorr (env.rands s.retryCounter) defaultWaitAlgo s.retryCounter s.sleepTime = some d →
      ∃ s', executeIter env s = .continue2 s') := by
  have hcore : ∀ g : String, isRetryableError g e = (false, e) := by
    intro g
    cases e
    case urlError cause => exact absurd hnot (by simp [GoError.isURLErrorB])
    all_goals rfl
  refine ⟨hcore goos, ?_⟩
  intro hatt hbud hdec
  simp only [executeIter, hatt, hcore env.goos, Bool.false_eq_true, if_false]
  simp only [retryHandling, hdec]
  rw [if_neg (not_lt.mpr hbud)]
  exact ⟨_, rfl⟩

/-- C9 witness: a bare (unwrapped) context cancellation is classified as
retryable, and the corresponding execute() iteration continues the loop. -/
theorem C9_witness :
    isRetryableError "linux" GoError.contextCanceled = (false, GoError.contextCanceled)
  ∧ ∃ s', executeIter envC9w (initState envC9w uC9fix) = .continue2 s' := by
  have h := C9_non_wrapper_errors_retryable "linux" .contextCanceled envC9w
    (initState envC9w uC9fix) 1000000000 (by decide)
  exact ⟨h.1, h.2 rfl (by decide) (by rfl)⟩

/-- C10: on every URL outside the query-execution path, the retry-count
updater, the retry-reason updater (under any configuration) and the
client-start-time setter are each the identity, and therefore every
sequence of applications of these three mutators leaves the URL unchanged
and never adds a retryCount, retryReason or clientStartTime parameter. -/
theorem C10_non_query_mutators_identity (u : URL) (h : isQueryRequest u = false) :
    (∀ n, (newRetryCountUpdater u).replaceOrAdd n u = u)
  ∧ (∀ cfg n, (newRetryReasonUpdater u cfg).replaceOrAdd n u = u)
  ∧ (∀ ts, ensureClientStartTimeIsSet u ts = u)
  ∧ (∀ ops : List TrackOp, ops.foldl applyTrackOp u = u) := by
  have hc : ∀ n : Int, (newRetryCountUpdater u).replaceOrAdd n u = u := by
    intro n
    simp [newRetryCountUpdater, h, RetryCountUpdaterM.replaceOrAdd]
  have hr : ∀ (cfg : Option Config) (n : Int),
      (newRetryReasonUpdater u cfg).replaceOrAdd n u = u := by
    intro cfg n
    simp [newRetryReasonUpdater, h, RetryReasonUpdaterM.replaceOrAdd]
  have hs : ∀ ts : String, ensureClientStartTimeIsSet u ts = u := by
    intro ts
    simp [ensureClientStartTimeIsSet, h]
  refine ⟨hc, hr, hs, ?_⟩
  intro ops
  induction ops with
  | nil => rfl
  | cons op ops ih =>
      rw [List.foldl_cons]
      have hop : applyTrackOp u op = u := by
        cases op with
        | count n => exact hc n
        | reason cfg n => exact hr cfg n
        | clientStart ts => exact hs ts
      rw [hop]; exact ih

/-- C10 witness: on a login-route URL a sequence of the three tracking
mutators leaves the URL unchanged. -/
theorem C10_witness :
    [TrackOp.count 1, TrackOp.reason none 503, TrackOp.clientStart "123"].foldl applyTrackOp
      { path := "/session/v1/login-request", query := [(requestGUIDKey, "g0")] } =
    { path := "/session/v1/login-request", query := [(requestGUIDKey, "g0")] } :=
  (C10_non_query_mutators_identity
    { path := "/session/v1/login-request", query := [(requestGUIDKey, "g0")] }
    (by decide)).2.2.2 _
